import Mathlib

/-!
# Verification of the forecast blend core (`src/scripts/blend_forecast.py`)

Shallow embedding of the reconciliation/blend pipeline:

* `NwsPeriod` — the normalized government period record produced by
  `parse_nws_periods` (the shape `collapse_nws_to_daily` consumes).
* `DailySummary` / `collapse_nws_to_daily` — the Daily Collapser folding
  alternating day/night periods into one summary per date key.
* `TwcRaw` / `TwcDay` / `parse_twc_daily` — the commercial-source
  normalizer zipping parallel arrays.
* `BlendedDay` / `blend_days` — the Blend Engine joining the two per-day
  datasets.

Python dicts keyed by date strings are embedded as insertion-ordered
association lists `List (String × DailySummary)`; `dict.setdefault`
followed by in-place mutation becomes `updateKey`.  Optional / nullable
JSON fields become `Option`; numbers are `Int` (temperatures, PoP
percentages) and `Rat` (QPF amounts).  Machine-level concerns do not
arise: Python integers are unbounded.
-/

namespace Blend

/-- Normalized government-source period, the output shape of
`parse_nws_periods`: every field is `p.get(...)` of the raw JSON and may
be null.  `is_day` records the truthiness of `p["isDaytime"]` as the
collapser's branch `if p["is_day"]:` tests it. -/
structure NwsPeriod where
  name : Option String
  start : Option String
  is_day : Bool
  temp : Option Int
  pop : Option Int
  detail : Option String
  icon : Option String
deriving DecidableEq, Repr

/-- The per-date summary dict the collapser builds
(`daily.setdefault(day_key, {...})` literal in the source). -/
structure DailySummary where
  nws_day_name : Option String
  nws_day_temp : Option Int
  nws_night_temp : Option Int
  nws_pop : Int
  nws_icon_day : Option String
  nws_icon_night : Option String
  nws_narr_day : String
  nws_narr_night : String
deriving DecidableEq, Repr

/-- The default summary installed by `daily.setdefault`: all fields null,
`nws_pop` 0, narratives empty. -/
def emptySummary : DailySummary :=
  { nws_day_name := none
    nws_day_temp := none
    nws_night_temp := none
    nws_pop := 0
    nws_icon_day := none
    nws_icon_night := none
    nws_narr_day := ""
    nws_narr_night := "" }

/-- Python `_day_key_from_iso`: `None` for a null or empty string (`if not iso`),
else the first 10 characters (`iso[:10]`). -/
def day_key_from_iso : Option String → Option String
  | none => none
  | some s => if s = "" then none else some (s.take 10)

/-- Truthiness of `p["detail"]` in `if p["detail"]:`: a non-null,
non-empty string. -/
def detailTruthy : Option String → Bool
  | none => false
  | some s => s ≠ ""

/-- One period folded into one date's summary: the body of the collapser's
loop after the `setdefault` (day/night slot assignment, the non-empty
narrative overwrite guard, and the PoP running max). -/
def applyPeriod (d : DailySummary) (p : NwsPeriod) : DailySummary :=
  let d :=
    if p.is_day then
      { d with
        nws_day_name := p.name
        nws_day_temp := p.temp
        nws_icon_day := p.icon
        nws_narr_day := if detailTruthy p.detail then p.detail.getD "" else d.nws_narr_day }
    else
      { d with
        nws_night_temp := p.temp
        nws_icon_night := p.icon
        nws_narr_night := if detailTruthy p.detail then p.detail.getD "" else d.nws_narr_night }
  -- `if isinstance(p["pop"], (int, float)) ...: d["nws_pop"] = max(d["nws_pop"], p["pop"] or 0)`
  -- (`v or 0` is `v` when `v ≠ 0` and `0` when `v = 0`, hence just `v` under `max`).
  match p.pop with
  | some v => { d with nws_pop := max d.nws_pop v }
  | none => d

/-- The period's probability-of-precipitation contribution to the daily
maximum: its value, treated as 0 when absent (a non-numeric JSON value,
which the source's `isinstance` guard also skips, is embedded as
absent). -/
def popOrZero (p : NwsPeriod) : Int := p.pop.getD 0

/-- First-match lookup in the insertion-ordered map (Python dict `get`). -/
def alookup : List (String × DailySummary) → String → Option DailySummary
  | [], _ => none
  | (k, v) :: rest, key => if k = key then some v else alookup rest key

/-- Python `daily.setdefault(day_key, {...})` followed by in-place mutation of
the returned dict: update the existing entry in place, or append a fresh
default-then-updated entry (Python dicts preserve insertion order). -/
def updateKey : List (String × DailySummary) → String → (DailySummary → DailySummary) →
    List (String × DailySummary)
  | [], key, f => [(key, f emptySummary)]
  | (k, v) :: rest, key, f =>
      if k = key then (k, f v) :: rest else (k, v) :: updateKey rest key f

/-- One iteration of the collapser's `for p in nws_periods` loop:
skip when the day key is unresolvable (`if not day_key: continue`),
else fold the period into that key's summary. -/
def collapseStep (daily : List (String × DailySummary)) (p : NwsPeriod) :
    List (String × DailySummary) :=
  match day_key_from_iso p.start with
  | none => daily
  | some k => updateKey daily k (fun d => applyPeriod d p)

/-- Source `collapse_nws_to_daily`: fold the whole period sequence starting from
the empty dict. -/
def collapse_nws_to_daily (nws_periods : List NwsPeriod) : List (String × DailySummary) :=
  nws_periods.foldl collapseStep []

/-- Raw commercial-source payload: parallel arrays, each cell itself
nullable.  A `validTimeUtc` cell is `some ts` for an epoch-seconds number
and `none` for a value on which `datetime.utcfromtimestamp` raises
(null, non-numeric, out of range). -/
structure TwcRaw where
  validTimeUtc : List (Option Int)
  dayOfWeek : List (Option String)
  temperatureMax : List (Option Int)
  temperatureMin : List (Option Int)
  qpf : List (Option Rat)
  narrative : List (Option String)
deriving Repr

/-- One normalized commercial-source day record. -/
structure TwcDay where
  date_utc : Option String
  dow : Option String
  tmax : Option Int
  tmin : Option Int
  qpf : Option Rat
  narr : Option String
deriving DecidableEq, Repr

/-- Two-digit zero padding for ISO time components. -/
def pad2 (n : Int) : String :=
  if n < 10 then "0" ++ toString n else toString n

/-- Four-digit zero padding for the ISO year. -/
def pad4 (n : Int) : String :=
  if n < 10 then "000" ++ toString n
  else if n < 100 then "00" ++ toString n
  else if n < 1000 then "0" ++ toString n
  else toString n

/-- Civil date from days since the Unix epoch (proleptic Gregorian),
modelling the calendar arithmetic inside `datetime.utcfromtimestamp`. -/
def civilFromDays (z0 : Int) : Int × Int × Int :=
  let z := z0 + 719468
  let era := (if 0 ≤ z then z else z - 146096).tdiv 146097
  let doe := z - era * 146097
  let yoe := (doe - doe.tdiv 1460 + doe.tdiv 36524 - doe.tdiv 146096).tdiv 365
  let y := yoe + era * 400
  let doy := doe - (365 * yoe + yoe.tdiv 4 - yoe.tdiv 100)
  let mp := (5 * doy + 2).tdiv 153
  let d := doy - (153 * mp + 2).tdiv 5 + 1
  let m := mp + (if mp < 10 then 3 else -9)
  (y + (if m ≤ 2 then 1 else 0), m, d)

/-- Python `datetime.utcfromtimestamp(ts).isoformat()` for an integral epoch
timestamp: `YYYY-MM-DDTHH:MM:SS`. -/
def utcIsoOfEpoch (ts : Int) : String :=
  let days := ts.fdiv 86400
  let secs := ts.emod 86400
  let ymd := civilFromDays days
  pad4 ymd.1 ++ "-" ++ pad2 ymd.2.1 ++ "-" ++ pad2 ymd.2.2 ++ "T" ++
    pad2 (secs.tdiv 3600) ++ ":" ++ pad2 ((secs.tdiv 60).tmod 60) ++ ":" ++ pad2 (secs.tmod 60)

/-- Source `parse_twc_daily`: iterate `for i in range(len(validTimeUtc))`; each
companion array is read with a bounds check (`arr[i] if i < len(arr) else
None`); a timestamp on which parsing raises yields a null `date_utc`
(`try/except` plus `... + "Z" if date_utc else None`). -/
def parse_twc_daily (twc : TwcRaw) : List TwcDay :=
  (List.range twc.validTimeUtc.length).map fun i =>
    { date_utc := (twc.validTimeUtc.getD i none).map (fun ts => utcIsoOfEpoch ts ++ "Z")
      dow := twc.dayOfWeek.getD i none
      tmax := twc.temperatureMax.getD i none
      tmin := twc.temperatureMin.getD i none
      qpf := twc.qpf.getD i none
      narr := twc.narrative.getD i none }

/-- Per-field provenance flags of one blended day. -/
structure SourceFlags where
  nwsTempDay : Bool
  nwsTempNight : Bool
  nwsPoP : Bool
  twcQpf : Bool
  twcBase : Bool
deriving DecidableEq, Repr

/-- One entry of the blended output sequence. -/
structure BlendedDay where
  date : Option String
  dayOfWeek : Option String
  highTemp_F : Option Int
  lowTemp_F : Option Int
  qpf_in : Option Rat
  pop_pct : Option Int
  narrative : String
  icons_day : Option String
  icons_night : Option String
  sourceFlags : SourceFlags
deriving DecidableEq, Repr

/-- Python `str.isspace` on the ASCII whitespace characters `str.strip()`
removes. -/
def pyIsSpace (c : Char) : Bool :=
  c = ' ' || c = '\t' || c = '\n' || c = '\r' || c = '\x0b' || c = '\x0c'

/-- Python `str.strip()`: drop leading and trailing whitespace. -/
def pyStrip (s : String) : String :=
  String.mk (((s.data.dropWhile pyIsSpace).reverse.dropWhile pyIsSpace).reverse)

/-- Python `td["date_utc"][:10] if td["date_utc"] else None`: the day key of a
commercial record (null when `date_utc` is null or empty). -/
def twcDayKey (td : TwcDay) : Option String :=
  match td.date_utc with
  | none => none
  | some s => if s = "" then none else some (s.take 10)

/-- Python `nws_daily.get(day_key, {})`: the government match of a commercial
record (`none` embeds the empty dict `{}`: no key of the summary shape is
present, so every `nws_match.get(...)` returns null / its default). -/
def nwsMatch (nws_daily : List (String × DailySummary)) (td : TwcDay) : Option DailySummary :=
  match twcDayKey td with
  | none => none
  | some k => alookup nws_daily k

/-- The body of `blend_days`' loop: blend one commercial day against the
government daily map.  When a match exists the summary dict holds every
key, so `nws_match.get("nws_day_temp", td["tmax"])` returns the stored
value even when that value is null; the defaults only apply on a missed
join. -/
def blendOne (nws_daily : List (String × DailySummary)) (td : TwcDay) : BlendedDay :=
  let day_key := twcDayKey td
  let nws_match := nwsMatch nws_daily td
  let hi : Option Int :=
    match nws_match with
    | some d => d.nws_day_temp
    | none => td.tmax
  let lo : Option Int :=
    match nws_match with
    | some d => d.nws_night_temp
    | none => td.tmin
  let pop : Option Int := nws_match.map (fun d => d.nws_pop)
  let narr : String :=
    match nws_match with
    | some d =>
        if d.nws_narr_day ≠ "" ∨ d.nws_narr_night ≠ "" then
          let base := pyStrip d.nws_narr_day
          let night := pyStrip d.nws_narr_night
          if night ≠ "" then base ++ " " ++ night else base
        else td.narr.getD ""
    | none => td.narr.getD ""
  { date := day_key
    dayOfWeek := td.dow
    highTemp_F := hi
    lowTemp_F := lo
    qpf_in := td.qpf
    pop_pct := pop
    narrative := narr
    icons_day := nws_match.bind (fun d => d.nws_icon_day)
    icons_night := nws_match.bind (fun d => d.nws_icon_night)
    sourceFlags :=
      { nwsTempDay := (nws_match.bind (fun d => d.nws_day_temp)).isSome
        nwsTempNight := (nws_match.bind (fun d => d.nws_night_temp)).isSome
        nwsPoP := nws_match.isSome
        twcQpf := td.qpf.isSome
        twcBase := true } }

/-- Source `blend_days`: iterate the commercial sequence truncated to the day
limit (`for td in twc_days[:days_limit]`), blending each day.  The Python
default `days_limit=7` is passed explicitly by callers here. -/
def blend_days (nws_daily : List (String × DailySummary)) (twc_days : List TwcDay)
    (days_limit : Nat) : List BlendedDay :=
  (twc_days.take days_limit).map (blendOne nws_daily)

/-! ## Concrete example data

The spec's own worked scenario (section 8): a 2025-07-18 government day
and night period and the corresponding commercial day, plus a night-only
variant for the fallback edge cases. -/

/-- Government summary for a date with both a day and a night period
(the spec's positive scenario). -/
def fullSummary : DailySummary :=
  { emptySummary with
    nws_day_name := some "Friday"
    nws_day_temp := some 95
    nws_night_temp := some 75
    nws_pop := 40
    nws_narr_day := "Sunny"
    nws_narr_night := "Clear" }

/-- Government summary for a date that had only a night period: the
collapser leaves `nws_day_temp` null and `nws_narr_day` empty. -/
def nightOnlySummary : DailySummary :=
  { emptySummary with
    nws_night_temp := some 75
    nws_narr_night := "Clear" }

/-- Commercial day for 2025-07-18. -/
def tdJul18 : TwcDay :=
  { date_utc := some "2025-07-18T12:00:00Z"
    dow := some "Friday"
    tmax := some 96
    tmin := some 74
    qpf := some 0
    narr := some "Hot" }

/-- Government daily map holding only the night-only 2025-07-18 summary. -/
def nightOnlyMap : List (String × DailySummary) := [("2025-07-18", nightOnlySummary)]

/-- Government daily map holding the full 2025-07-18 summary. -/
def fullMap : List (String × DailySummary) := [("2025-07-18", fullSummary)]

/-- The spec scenario's daytime government period for 2025-07-18. -/
def dayPeriod : NwsPeriod :=
  { name := some "Friday"
    start := some "2025-07-18T06:00:00-05:00"
    is_day := true
    temp := some 95
    pop := some 40
    detail := some "Sunny"
    icon := none }

/-- The spec scenario's nighttime government period for 2025-07-18. -/
def nightPeriod : NwsPeriod :=
  { name := some "Friday Night"
    start := some "2025-07-18T18:00:00-05:00"
    is_day := false
    temp := some 75
    pop := some 10
    detail := some "Clear"
    icon := none }

/-- A later daytime period for the same date carrying an empty detailed
forecast (falsy in Python). -/
def emptyDetailDay : NwsPeriod :=
  { name := some "Friday"
    start := some "2025-07-18T12:00:00-05:00"
    is_day := true
    temp := some 97
    pop := none
    detail := some ""
    icon := none }

/-- A commercial payload with misaligned companion arrays and one
timestamp cell on which parsing raises. -/
def rawMisaligned : TwcRaw :=
  { validTimeUtc := [none, some 1752811200]
    dayOfWeek := [some "Thursday"]
    temperatureMax := [some 96, some 97]
    temperatureMin := []
    qpf := [some 0]
    narrative := [] }

/-! ## Helper lemmas -/

/-- Lookup after `updateKey`: the touched key now holds the function
applied to its previous value (or to the fresh default), every other key
is untouched. -/
theorem alookup_updateKey (m : List (String × DailySummary)) (k k' : String)
    (f : DailySummary → DailySummary) :
    alookup (updateKey m k f) k' =
      if k' = k then some (f ((alookup m k).getD emptySummary)) else alookup m k' := by
  induction m with
  | nil =>
      by_cases h : k' = k
      · subst h; simp [updateKey, alookup]
      · simp [updateKey, alookup, h, Ne.symm h]
  | cons hd tl ih =>
      obtain ⟨a, v⟩ := hd
      by_cases hak : a = k
      · subst hak
        by_cases h : k' = a
        · subst h; simp [updateKey, alookup]
        · simp [updateKey, alookup, h, Ne.symm h]
      · by_cases h : k' = a
        · subst h
          simp [updateKey, alookup, hak]
        · simp [updateKey, alookup, hak, h, Ne.symm h, ih]

/-- A period never erases a non-empty `nws_narr_day`: a day period only
overwrites it with a truthy (hence non-empty) detailed forecast, a night
period leaves it alone. -/
theorem applyPeriod_narr_day_ne (d : DailySummary) (p : NwsPeriod)
    (h : d.nws_narr_day ≠ "") : (applyPeriod d p).nws_narr_day ≠ "" := by
  rcases p with ⟨name, start, is_day, temp, pop, detail, icon⟩
  cases is_day with
  | false => cases pop <;> simpa [applyPeriod] using h
  | true =>
      rcases detail with _ | s
      · cases pop <;> simpa [applyPeriod, detailTruthy] using h
      · by_cases hs : s = "" <;> cases pop <;>
          simp [applyPeriod, detailTruthy, hs] <;> assumption

/-- Night counterpart of `applyPeriod_narr_day_ne`. -/
theorem applyPeriod_narr_night_ne (d : DailySummary) (p : NwsPeriod)
    (h : d.nws_narr_night ≠ "") : (applyPeriod d p).nws_narr_night ≠ "" := by
  rcases p with ⟨name, start, is_day, temp, pop, detail, icon⟩
  cases is_day with
  | true => cases pop <;> simpa [applyPeriod] using h
  | false =>
      rcases detail with _ | s
      · cases pop <;> simpa [applyPeriod, detailTruthy] using h
      · by_cases hs : s = "" <;> cases pop <;>
          simp [applyPeriod, detailTruthy, hs] <;> assumption

/-- The PoP slot after one period: the running maximum with the period's
value, untouched when the period has none. -/
theorem applyPeriod_nws_pop (d : DailySummary) (p : NwsPeriod) :
    (applyPeriod d p).nws_pop =
      match p.pop with
      | some v => max d.nws_pop v
      | none => d.nws_pop := by
  rcases hp : p.pop with _ | v <;> cases hd : p.is_day <;> simp [applyPeriod, hp, hd]

/-- A property preserved by `applyPeriod` and present at a key survives
the rest of the collapser's fold, and the key stays present. -/
theorem collapse_preserves_at_key (P : DailySummary → Prop)
    (hP : ∀ d p, P d → P (applyPeriod d p)) (ps : List NwsPeriod) :
    ∀ m k d, alookup m k = some d → P d →
      ∃ d', alookup (ps.foldl collapseStep m) k = some d' ∧ P d' := by
  induction ps with
  | nil => intro m k d hm hd; exact ⟨d, hm, hd⟩
  | cons q qs ih =>
      intro m k d hm hd
      simp only [List.foldl_cons]
      rcases hq : day_key_from_iso q.start with _ | kq
      · refine ih (collapseStep m q) k d ?_ hd
        simpa [collapseStep, hq] using hm
      · by_cases hk : k = kq
        · subst hk
          refine ih (collapseStep m q) k (applyPeriod d q) ?_ (hP d q hd)
          simp [collapseStep, hq, alookup_updateKey, hm]
        · refine ih (collapseStep m q) k d ?_ hd
          simp [collapseStep, hq, alookup_updateKey, hk, hm]

/-- A property holding for the fresh default summary, preserved by every
period of the fold, and holding for every entry of the initial map, holds
for every entry of the final map. -/
theorem collapse_invariant (P : DailySummary → Prop) (ps : List NwsPeriod)
    (hP : ∀ d p, p ∈ ps → P d → P (applyPeriod d p)) (hE : P emptySummary) :
    ∀ m, (∀ k d, alookup m k = some d → P d) →
      ∀ k d, alookup (ps.foldl collapseStep m) k = some d → P d := by
  revert hP
  induction ps with
  | nil => intro _ m hm k d hd; exact hm k d hd
  | cons q qs ih =>
      intro hP m hm k d hd
      simp only [List.foldl_cons] at hd
      refine ih (fun d p hp => hP d p (List.mem_cons_of_mem q hp)) (collapseStep m q) ?_ k d hd
      intro k' d' hd'
      rcases hq : day_key_from_iso q.start with _ | kq
      · exact hm k' d' (by simpa [collapseStep, hq] using hd')
      · simp only [collapseStep, hq] at hd'
        rw [alookup_updateKey] at hd'
        by_cases hk : k' = kq
        · rw [if_pos hk] at hd'
          rcases hprev : alookup m kq with _ | d0
          · rw [hprev] at hd'
            simp only [Option.getD_none] at hd'
            have := hP emptySummary q (List.mem_cons_self q qs) hE
            rw [Option.some_inj] at hd'
            exact hd' ▸ this
          · rw [hprev] at hd'
            simp only [Option.getD_some] at hd'
            have := hP d0 q (List.mem_cons_self q qs) (hm kq d0 hprev)
            rw [Option.some_inj] at hd'
            exact hd' ▸ this
        · rw [if_neg hk] at hd'
          exact hm k' d' hd'

/-! ## Claims -/

/-- Claim C1, counterexample.  The claim says a matched day whose
government `dayTemp` is null (night-only date) gets `highTemp` from the
commercial `tempMax`.  On the code, `nws_match.get("nws_day_temp",
td["tmax"])` returns the stored null because a matched summary dict
always contains the key — the default only fires on a missed join.  At
the concrete night-only 2025-07-18 input the blended `highTemp` is null,
not the commercial 96. -/
theorem C1_counterexample :
    nightOnlySummary.nws_day_temp = none ∧
    alookup nightOnlyMap "2025-07-18" = some nightOnlySummary ∧
    tdJul18.tmax = some 96 ∧
    (blend_days nightOnlyMap [tdJul18] 7).map (fun b => b.highTemp_F) = [none] := by
  refine ⟨rfl, rfl, rfl, ?_⟩
  decide

/-- Claim C1, amended: every blended output day takes `highTemp` from the
matched government summary's `dayTemp` whenever the day-key matched —
including a null `dayTemp`, with no commercial fallback in that case —
and takes the commercial `tempMax` exactly when no government match
exists; symmetrically `lowTemp` from `nightTemp` when matched and from
`tempMin` only on a missed join. -/
theorem C1_high_low_fallback (m : List (String × DailySummary)) (tds : List TwcDay)
    (n i : Nat) (td : TwcDay) (hn : i < n) (htd : tds[i]? = some td) :
    (blend_days m tds n)[i]? = some (blendOne m td) ∧
    (match nwsMatch m td with
     | some d =>
         (blendOne m td).highTemp_F = d.nws_day_temp ∧
         (blendOne m td).lowTemp_F = d.nws_night_temp
     | none =>
         (blendOne m td).highTemp_F = td.tmax ∧
         (blendOne m td).lowTemp_F = td.tmin) := by
  constructor
  · rw [blend_days, List.getElem?_map, List.getElem?_take, if_pos hn, htd]
    rfl
  · rcases h : nwsMatch m td with _ | d <;> simp [blendOne, h]

/-- Witness for `C1_high_low_fallback`: at the night-only 2025-07-18
input the matched branch applies and both temperatures come from the
government summary (so `highTemp` is its null `dayTemp`). -/
theorem C1_high_low_fallback_witness :
    (blend_days nightOnlyMap [tdJul18] 7)[0]? = some (blendOne nightOnlyMap tdJul18) ∧
    (blendOne nightOnlyMap tdJul18).highTemp_F = nightOnlySummary.nws_day_temp ∧
    (blendOne nightOnlyMap tdJul18).lowTemp_F = nightOnlySummary.nws_night_temp := by
  have h := C1_high_low_fallback nightOnlyMap [tdJul18] 7 0 tdJul18 (by decide) (by decide)
  refine ⟨h.1, ?_⟩
  have h2 := h.2
  rw [show nwsMatch nightOnlyMap tdJul18 = some nightOnlySummary from by decide] at h2
  exact h2

/-- Claim C2: the blended output has length `min(dayLimit, number of
commercial days)`; a limit beyond the available days yields exactly the
available days; an empty commercial list yields the empty output. -/
theorem C2_output_length (m : List (String × DailySummary)) (tds : List TwcDay) (n : Nat) :
    (blend_days m tds n).length = min n tds.length ∧
    (tds.length ≤ n → (blend_days m tds n).length = tds.length) ∧
    blend_days m [] n = [] := by
  refine ⟨?_, ?_, ?_⟩
  · simp [blend_days]
  · intro h; simp [blend_days, Nat.min_eq_right h]
  · simp [blend_days]

/-- Witness for `C2_output_length`: limit 3 over one available day yields
one entry, and over no days yields the empty output. -/
theorem C2_output_length_witness :
    (blend_days nightOnlyMap [tdJul18] 3).length = min 3 [tdJul18].length ∧
    (blend_days nightOnlyMap [tdJul18] 3).length = [tdJul18].length ∧
    blend_days nightOnlyMap [] 3 = [] :=
  ⟨(C2_output_length nightOnlyMap [tdJul18] 3).1,
   (C2_output_length nightOnlyMap [tdJul18] 3).2.1 (by decide),
   (C2_output_length nightOnlyMap [tdJul18] 3).2.2⟩

/-- Claim C3, counterexample.  The claim says the stitched government
narrative filters out empty parts and is trimmed, so it never starts with
a space.  On the code, `narr = narr + " " + night` prepends the separator
even when the (stripped) day part is empty: for the night-only
2025-07-18 summary (`narrativeDay = ""`, `narrativeNight = "Clear"`) the
blended narrative is `" Clear"`, which carries a leading space. -/
theorem C3_counterexample :
    nightOnlySummary.nws_narr_day = "" ∧
    nightOnlySummary.nws_narr_night = "Clear" ∧
    (blend_days nightOnlyMap [tdJul18] 7).map (fun b => b.narrative) = [" Clear"] ∧
    pyStrip " Clear" ≠ " Clear" := by
  refine ⟨rfl, rfl, ?_, ?_⟩ <;> decide

/-- Claim C3, amended: when the day-key matched and either government
narrative is non-empty, the blended narrative is `strip(narrativeDay)`
followed — when `strip(narrativeNight)` is non-empty — by a space and
`strip(narrativeNight)`; the empty day part is not filtered, so the
result carries a leading space when `narrativeDay` strips to empty while
the night part does not.  When both are empty, or no match exists, the
narrative is the commercial one (empty string when that is null). -/
theorem C3_narrative (m : List (String × DailySummary)) (td : TwcDay) :
    (∀ d, nwsMatch m td = some d →
      (d.nws_narr_day ≠ "" ∨ d.nws_narr_night ≠ "" →
        (blendOne m td).narrative =
          pyStrip d.nws_narr_day ++
            (if pyStrip d.nws_narr_night = "" then "" else " " ++ pyStrip d.nws_narr_night)) ∧
      (d.nws_narr_day = "" ∧ d.nws_narr_night = "" →
        (blendOne m td).narrative = td.narr.getD "")) ∧
    (nwsMatch m td = none → (blendOne m td).narrative = td.narr.getD "") := by
  constructor
  · intro d hd
    constructor
    · intro hne
      by_cases hnight : pyStrip d.nws_narr_night = "" <;>
        simp [blendOne, hd, hne, hnight, String.append_assoc]
    · rintro ⟨h1, h2⟩
      simp [blendOne, hd, h1, h2]
  · intro hd
    simp [blendOne, hd]

/-- Witness for `C3_narrative` at the night-only 2025-07-18 input. -/
theorem C3_narrative_witness :
    (blendOne nightOnlyMap tdJul18).narrative =
      pyStrip nightOnlySummary.nws_narr_day ++
        (if pyStrip nightOnlySummary.nws_narr_night = "" then ""
         else " " ++ pyStrip nightOnlySummary.nws_narr_night) :=
  ((C3_narrative nightOnlyMap tdJul18).1 nightOnlySummary (by decide)).1 (by decide)

/-- Claim C4: the `nwsTempDay` provenance flag is set exactly when
`highTemp` came from a matched government summary's non-null `dayTemp`,
analogously `nwsTempNight` for `lowTemp`; a missed join clears every
government-side flag. -/
theorem C4_source_flags (m : List (String × DailySummary)) (td : TwcDay) :
    ((blendOne m td).sourceFlags.nwsTempDay = true ↔
      ∃ d v, nwsMatch m td = some d ∧ d.nws_day_temp = some v ∧
        (blendOne m td).highTemp_F = some v) ∧
    ((blendOne m td).sourceFlags.nwsTempNight = true ↔
      ∃ d v, nwsMatch m td = some d ∧ d.nws_night_temp = some v ∧
        (blendOne m td).lowTemp_F = some v) ∧
    (nwsMatch m td = none →
      (blendOne m td).sourceFlags.nwsTempDay = false ∧
      (blendOne m td).sourceFlags.nwsTempNight = false ∧
      (blendOne m td).sourceFlags.nwsPoP = false) := by
  rcases h : nwsMatch m td with _ | d
  · simp [blendOne, h]
  · refine ⟨?_, ?_, by simp [h]⟩
    · rcases hdt : d.nws_day_temp with _ | v <;> simp [blendOne, h, hdt]
    · rcases hnt : d.nws_night_temp with _ | v <;> simp [blendOne, h, hnt]

/-- Witness for `C4_source_flags`: with no government data every
government-side flag is false. -/
theorem C4_source_flags_witness :
    (blendOne [] tdJul18).sourceFlags.nwsTempDay = false ∧
    (blendOne [] tdJul18).sourceFlags.nwsTempNight = false ∧
    (blendOne [] tdJul18).sourceFlags.nwsPoP = false :=
  (C4_source_flags [] tdJul18).2.2 (by decide)

/-- Claim C5: `pop` is the matched government summary's `pop` and null on
a missed join — the commercial `qpf` is never substituted for it — while
`qpf` passes through unchanged from the commercial record. -/
theorem C5_pop_qpf (m : List (String × DailySummary)) (td : TwcDay) :
    (∀ d, nwsMatch m td = some d → (blendOne m td).pop_pct = some d.nws_pop) ∧
    (nwsMatch m td = none → (blendOne m td).pop_pct = none) ∧
    (blendOne m td).qpf_in = td.qpf := by
  refine ⟨?_, ?_, rfl⟩
  · intro d hd; simp [blendOne, hd]
  · intro hd; simp [blendOne, hd]

/-- Witness for `C5_pop_qpf`: matched 2025-07-18 carries the government
PoP 40; the unmatched case carries null. -/
theorem C5_pop_qpf_witness :
    (blendOne fullMap tdJul18).pop_pct = some fullSummary.nws_pop ∧
    (blendOne [] tdJul18).pop_pct = none :=
  ⟨(C5_pop_qpf fullMap tdJul18).1 fullSummary (by decide),
   (C5_pop_qpf [] tdJul18).2.1 (by decide)⟩

/-- Claim C6: folding one period into a date's summary sets the stored
PoP to `max(previous, period value treated as 0 when absent)`, so it
never decreases; it starts at 0 with the fresh default, and the stored
value at any key never decreases across a collapser step. -/
theorem C6_pop_monotone (daily : List (String × DailySummary)) (p : NwsPeriod)
    (k : String) (d : DailySummary) (h0 : 0 ≤ d.nws_pop) :
    (applyPeriod d p).nws_pop = max d.nws_pop (popOrZero p) ∧
    d.nws_pop ≤ (applyPeriod d p).nws_pop ∧
    (alookup daily k = some d →
      ∃ d', alookup (collapseStep daily p) k = some d' ∧ d.nws_pop ≤ d'.nws_pop) ∧
    emptySummary.nws_pop = 0 := by
  have hpop : (applyPeriod d p).nws_pop = max d.nws_pop (popOrZero p) := by
    rw [applyPeriod_nws_pop]
    rcases hp : p.pop with _ | v
    · simp [popOrZero, hp, max_eq_left h0]
    · simp [popOrZero, hp]
  refine ⟨hpop, by rw [hpop]; exact le_max_left _ _, ?_, rfl⟩
  intro hm
  rcases hq : day_key_from_iso p.start with _ | kq
  · exact ⟨d, by simpa [collapseStep, hq] using hm, le_refl _⟩
  · by_cases hk : k = kq
    · subst hk
      refine ⟨applyPeriod d p, ?_, by rw [hpop]; exact le_max_left _ _⟩
      simp [collapseStep, hq, alookup_updateKey, hm]
    · exact ⟨d, by simp [collapseStep, hq, alookup_updateKey, hk, hm], le_refl _⟩

/-- Witness for `C6_pop_monotone`: folding the night period (PoP 10) into
the full summary (PoP 40) keeps the maximum 40. -/
theorem C6_pop_monotone_witness :
    (applyPeriod fullSummary nightPeriod).nws_pop =
      max fullSummary.nws_pop (popOrZero nightPeriod) ∧
    fullSummary.nws_pop ≤ (applyPeriod fullSummary nightPeriod).nws_pop ∧
    emptySummary.nws_pop = 0 :=
  ⟨(C6_pop_monotone fullMap nightPeriod "2025-07-18" fullSummary (by decide)).1,
   (C6_pop_monotone fullMap nightPeriod "2025-07-18" fullSummary (by decide)).2.1,
   (C6_pop_monotone fullMap nightPeriod "2025-07-18" fullSummary (by decide)).2.2.2⟩

/-- Claim C7: a period whose detailed forecast is falsy never overwrites
the narrative slot of its kind, and a non-empty `narrativeDay`
(respectively `narrativeNight`) at a key stays non-empty through the rest
of the collapser's fold. -/
theorem C7_narrative_no_erase (d : DailySummary) (p : NwsPeriod)
    (m : List (String × DailySummary)) (k : String) (ps : List NwsPeriod)
    (d0 : DailySummary) (hm : alookup m k = some d0) :
    (p.is_day = true → detailTruthy p.detail = false →
      (applyPeriod d p).nws_narr_day = d.nws_narr_day) ∧
    (p.is_day = false → detailTruthy p.detail = false →
      (applyPeriod d p).nws_narr_night = d.nws_narr_night) ∧
    (d0.nws_narr_day ≠ "" →
      ∃ d1, alookup (ps.foldl collapseStep m) k = some d1 ∧ d1.nws_narr_day ≠ "") ∧
    (d0.nws_narr_night ≠ "" →
      ∃ d1, alookup (ps.foldl collapseStep m) k = some d1 ∧ d1.nws_narr_night ≠ "") := by
  refine ⟨?_, ?_, ?_, ?_⟩
  · intro h1 h2
    rcases hp : p.pop with _ | v <;> simp [applyPeriod, h1, h2, hp]
  · intro h1 h2
    rcases hp : p.pop with _ | v <;> simp [applyPeriod, h1, h2, hp]
  · intro hne
    exact collapse_preserves_at_key (fun d => d.nws_narr_day ≠ "")
      applyPeriod_narr_day_ne ps m k d0 hm hne
  · intro hne
    exact collapse_preserves_at_key (fun d => d.nws_narr_night ≠ "")
      applyPeriod_narr_night_ne ps m k d0 hm hne

/-- Witness for `C7_narrative_no_erase`: a later daytime period with an
empty detailed forecast leaves the full summary's narrative "Sunny" in
place. -/
theorem C7_narrative_no_erase_witness :
    (applyPeriod fullSummary emptyDetailDay).nws_narr_day = fullSummary.nws_narr_day :=
  (C7_narrative_no_erase fullSummary emptyDetailDay fullMap "2025-07-18" [emptyDetailDay]
      fullSummary (by decide)).1 (by decide) (by decide)

/-- Claim C8: the commercial normalizer yields one record per
`validTimeUtc` index; a companion array shorter than the index
contributes null instead of raising, and an unparseable timestamp cell
yields a null `date_utc` while the rest of the batch proceeds. -/
theorem C8_twc_parse (twc : TwcRaw) (i : Nat) (h : i < twc.validTimeUtc.length) :
    (parse_twc_daily twc).length = twc.validTimeUtc.length ∧
    ∃ r, (parse_twc_daily twc)[i]? = some r ∧
      (twc.dayOfWeek.length ≤ i → r.dow = none) ∧
      (twc.temperatureMax.length ≤ i → r.tmax = none) ∧
      (twc.temperatureMin.length ≤ i → r.tmin = none) ∧
      (twc.qpf.length ≤ i → r.qpf = none) ∧
      (twc.narrative.length ≤ i → r.narr = none) ∧
      (twc.validTimeUtc[i]? = some none → r.date_utc = none) ∧
      (∀ ts, twc.validTimeUtc[i]? = some (some ts) →
        r.date_utc = some (utcIsoOfEpoch ts ++ "Z")) := by
  refine ⟨by simp [parse_twc_daily], ?_⟩
  refine ⟨⟨(twc.validTimeUtc.getD i none).map (fun ts => utcIsoOfEpoch ts ++ "Z"),
      twc.dayOfWeek.getD i none, twc.temperatureMax.getD i none,
      twc.temperatureMin.getD i none, twc.qpf.getD i none,
      twc.narrative.getD i none⟩, ?_, ?_, ?_, ?_, ?_, ?_, ?_, ?_⟩
  · rw [parse_twc_daily, List.getElem?_map, List.getElem?_range h]
    rfl
  · intro hlen; simp [List.getD, List.getElem?_eq_none hlen]
  · intro hlen; simp [List.getD, List.getElem?_eq_none hlen]
  · intro hlen; simp [List.getD, List.getElem?_eq_none hlen]
  · intro hlen; simp [List.getD, List.getElem?_eq_none hlen]
  · intro hlen; simp [List.getD, List.getElem?_eq_none hlen]
  · intro hts
    simp [List.getD, hts]
  · intro ts hts
    simp [List.getD, hts]

/-- Witness for `C8_twc_parse` on the misaligned payload: two records
come out, the unparseable first timestamp degrades to a null date, and
the absent `temperatureMin` cells degrade to null. -/
theorem C8_twc_parse_witness :
    (parse_twc_daily rawMisaligned).length = rawMisaligned.validTimeUtc.length ∧
    (parse_twc_daily rawMisaligned).map (fun r => r.date_utc) =
      [none, some "2025-07-18T04:00:00Z"] ∧
    (parse_twc_daily rawMisaligned).map (fun r => r.tmin) = [none, none] :=
  ⟨(C8_twc_parse rawMisaligned 0 (by decide)).1, by decide, by decide⟩

/-- Claim C10: every summary the collapser produces carries a numeric PoP
(non-negative, never null), so a matched blended day always gets a
non-null `pop` with `nwsPoP` true; when no period supplied a PoP the
stored value is 0 and the flag is still true. -/
theorem C10_matched_pop_present (ps : List NwsPeriod) (m : List (String × DailySummary))
    (td : TwcDay) (k : String) (d : DailySummary) :
    (alookup (collapse_nws_to_daily ps) k = some d → 0 ≤ d.nws_pop) ∧
    (nwsMatch m td = some d →
      (blendOne m td).pop_pct = some d.nws_pop ∧
      (blendOne m td).sourceFlags.nwsPoP = true) ∧
    ((∀ p ∈ ps, p.pop = none) →
      alookup (collapse_nws_to_daily ps) k = some d → d.nws_pop = 0) := by
  refine ⟨?_, ?_, ?_⟩
  · intro hd
    refine collapse_invariant (fun d => 0 ≤ d.nws_pop) ps ?_ (by norm_num [emptySummary])
      [] (by intro k' d' hd'; cases hd') k d hd
    intro d' p _ h0
    rw [applyPeriod_nws_pop]
    rcases p.pop with _ | v
    · exact h0
    · exact le_trans h0 (le_max_left _ _)
  · intro hd
    constructor
    · simp [blendOne, hd]
    · simp [blendOne, hd]
  · intro hnone hd
    refine collapse_invariant (fun d => d.nws_pop = 0) ps ?_ rfl
      [] (by intro k' d' hd'; cases hd') k d hd
    intro d' p hp h0
    rw [applyPeriod_nws_pop, hnone p hp, h0]

/-- Witness for `C10_matched_pop_present`: the matched 2025-07-18 day
carries `pop = 40` with the `nwsPoP` flag set. -/
theorem C10_matched_pop_present_witness :
    (blendOne fullMap tdJul18).pop_pct = some fullSummary.nws_pop ∧
    (blendOne fullMap tdJul18).sourceFlags.nwsPoP = true :=
  (C10_matched_pop_present [dayPeriod] fullMap tdJul18 "2025-07-18" fullSummary).2.1
    (by decide)

/-- Claim C9: the collapser is a pure function of the period sequence —
its only state in the source is the local `daily` dict created afresh on
every call, so two runs on the same sequence produce identical mappings.
In the embedding this is determinism (congruence) of
`collapse_nws_to_daily`. -/
theorem C9_collapse_deterministic (ps qs : List NwsPeriod) (h : ps = qs) :
    collapse_nws_to_daily ps = collapse_nws_to_daily qs := by
  rw [h]

/-- Witness for `C9_collapse_deterministic` on a concrete one-period
sequence. -/
theorem C9_collapse_deterministic_witness :
    collapse_nws_to_daily
        [{ name := some "Friday", start := some "2025-07-18T06:00:00-05:00", is_day := true,
           temp := some 95, pop := some 40, detail := some "Sunny", icon := none }] =
      collapse_nws_to_daily
        [{ name := some "Friday", start := some "2025-07-18T06:00:00-05:00", is_day := true,
           temp := some 95, pop := some 40, detail := some "Sunny", icon := none }] :=
  C9_collapse_deterministic _ _ rfl

end Blend
